import Mathlib

/-!
Shallow embedding of `libavfilter/vf_deinterlace_v4l2m2m.c` (the V4L2 M2M
deinterlace filter) and proofs about its buffer-lifecycle and timestamp
logic.

Conventions of the embedding:
* C `int64_t` / `int` values are modelled as `Int` (overflow of 64-bit
  signed arithmetic is undefined behaviour in C and is not modelled);
  C unsigned device-supplied sizes are modelled as `Nat`.
* C truncating division/modulus (`/`, `%` on signed operands) are
  `Int.tdiv` / `Int.tmod`.
* Device interaction (`ioctl`, `poll`) is modelled by passing the results
  the device would produce as explicit parameters ("oracles"); each
  oracle field is named after the ioctl whose return value it supplies.
* Mutation of the context/slots is modelled by explicit state passing.
* Calls to `close(fd)` are recorded in an instrumentation list `closed`
  so that theorems can talk about which descriptors get closed;
  executions of the teardown body of `deint_v4l2m2m_destroy_context`
  are counted by the instrumentation field `destroyCount`.
-/

namespace DeintV4L2M2M

/-! ## Constants from the C headers -/

/-- FFmpeg `AVERROR(e)`: POSIX error `e` as a negative return code. -/
def AVERROR (e : Int) : Int := -e

/-- POSIX `EAGAIN`. -/
def EAGAIN : Int := 11

/-- POSIX `ENOMEM`. -/
def ENOMEM : Int := 12

/-- POSIX `EINVAL`. -/
def EINVAL : Int := 22

/-- FFmpeg `AV_NOPTS_VALUE` (`INT64_MIN`). -/
def AV_NOPTS_VALUE : Int := -9223372036854775808

/-- `USEC_PER_SEC` from the source file. -/
def USEC_PER_SEC : Int := 1000000

/-- `VIDEO_MAX_PLANES` from `linux/videodev2.h`. -/
def VIDEO_MAX_PLANES : Nat := 8

/-- `V4L2_FIELD_ANY` from `linux/videodev2.h`. -/
def V4L2_FIELD_ANY : Nat := 0

/-- `V4L2_FIELD_NONE` from `linux/videodev2.h`. -/
def V4L2_FIELD_NONE : Nat := 1

/-- `V4L2_FIELD_INTERLACED_TB` from `linux/videodev2.h`. -/
def V4L2_FIELD_INTERLACED_TB : Nat := 8

/-- `V4L2_FIELD_INTERLACED_BT` from `linux/videodev2.h`. -/
def V4L2_FIELD_INTERLACED_BT : Nat := 9

/-- `DRM_FORMAT_YUV420` fourcc (`YU12`) from `drm_fourcc.h`. -/
def DRM_FORMAT_YUV420 : Nat := 0x32315559

/-! ## Timestamp codec (`v4l2_set_pts`, `v4l2_get_pts`) -/

/-- `struct timeval` as stored in `v4l2_buffer.timestamp`. -/
structure Timeval where
  tv_sec : Int
  tv_usec : Int
  deriving DecidableEq

/-- `v4l2_set_pts` (vf_deinterlace_v4l2m2m.c:118-131): encode a
presentation timestamp into the buffer's timestamp field, with the
sentinel `(tv_sec, tv_usec) = (1000000, 0)` standing for
`AV_NOPTS_VALUE`. -/
def v4l2_set_pts (pts : Int) : Timeval :=
  if pts = AV_NOPTS_VALUE then
    { tv_sec := 1000000, tv_usec := 0 }
  else
    { tv_sec := pts.tdiv USEC_PER_SEC, tv_usec := pts.tmod USEC_PER_SEC }

/-- `v4l2_get_pts` (vf_deinterlace_v4l2m2m.c:133-145): decode the
timestamp; the sentinel decodes to `AV_NOPTS_VALUE`. -/
def v4l2_get_pts (ts : Timeval) : Int :=
  if ts.tv_sec = 1000000 ∧ ts.tv_usec = 0 then AV_NOPTS_VALUE
  else ts.tv_sec * USEC_PER_SEC + ts.tv_usec

/-! ## Buffer slots -/

/-- `struct V4L2PlaneInfo`. -/
structure V4L2PlaneInfo where
  bytesperline : Nat
  length : Nat
  deriving DecidableEq

/-- One entry of `AVDRMFrameDescriptor.objects`: an exported DMA object. -/
structure DRMObject where
  fd : Int
  size : Nat
  deriving DecidableEq

/-- `struct V4L2Buffer`, the bookkeeping record of one hardware buffer
slot.  `timestamp` is `buffer.timestamp`, `field` is `buffer.field`,
`bound_fds` are the DMA descriptors bound into `buffer.m` at submission
time, and `drm_objects` is `drm_frame.objects`.  The attached `AVFrame`
payload and the back pointer `q` are not represented (frames are moved
in and unreffed without being inspected; the queue is passed
explicitly). -/
structure V4L2Buffer where
  enqueued : Bool
  fd : Int
  field : Nat
  timestamp : Timeval
  num_planes : Nat
  plane_info : List V4L2PlaneInfo
  drm_objects : List DRMObject
  bound_fds : List Int
  deriving DecidableEq

/-- Update the element at index `i` of a list, as C does when writing
through a pointer into an array; out-of-range indices leave the list
unchanged. -/
def listModify {α : Type} (f : α → α) : List α → Nat → List α
  | [], _ => []
  | b :: q, 0 => f b :: q
  | b :: q, n + 1 => b :: listModify f q n

/-- `deint_v4l2m2m_enqueue_buffer` (vf_deinterlace_v4l2m2m.c:351-364):
`VIDIOC_QBUF` then, only on success, mark the slot enqueued.  `qbufRet`
is the ioctl return value and `errno` the C `errno` after a failing
call.  Returns the function's return code and the slot state after the
call. -/
def deint_v4l2m2m_enqueue_buffer (qbufRet errno : Int) (buf : V4L2Buffer) :
    Int × V4L2Buffer :=
  if qbufRet < 0 then (AVERROR errno, buf)
  else (0, { buf with enqueued := true })

/-- `deint_v4l2m2m_find_free_buf` (vf_deinterlace_v4l2m2m.c:585-597):
index of the first slot whose `enqueued` flag is unset, `none` if every
slot is enqueued.  (The C function returns a pointer into the pool;
the index identifies the same slot.) -/
def deint_v4l2m2m_find_free_buf : List V4L2Buffer → Option Nat
  | [] => none
  | b :: q =>
    if b.enqueued = false then some 0
    else (deint_v4l2m2m_find_free_buf q).map (· + 1)

/-- `recycle_q` (vf_deinterlace_v4l2m2m.c:613-619): dequeue every buffer
the device has finished with (`ready` lists their indices, in the order
`VIDIOC_DQBUF` reports them) and release its attached frame; dequeuing
clears the slot's `enqueued` flag
(`deint_v4l2m2m_dequeue_buffer`, line 572). -/
def recycle_q (ready : List Nat) (q : List V4L2Buffer) : List V4L2Buffer :=
  ready.foldl (fun q i => listModify (fun b => { b with enqueued := false }) q i) q

/-- `count_enqueued` (vf_deinterlace_v4l2m2m.c:621-630). -/
def count_enqueued (q : List V4L2Buffer) : Nat :=
  (q.filter (fun b => b.enqueued)).length

/-- The input `AVFrame` fields read by `deint_v4l2m2m_enqueue_frame`:
presentation timestamp, interlacing flags and the DMA object
descriptors of its `AVDRMFrameDescriptor`. -/
structure AVFrameIn where
  pts : Int
  interlaced_frame : Bool
  top_field_first : Bool
  obj_fds : List Int
  deriving DecidableEq

/-- Set the `fd` of `drm_frame.objects[i]`. -/
def setObjFd (objs : List DRMObject) (i : Nat) (fd : Int) : List DRMObject :=
  listModify (fun o => { o with fd := fd }) objs i

/-- The writes `deint_v4l2m2m_enqueue_frame` performs on the chosen free
slot before submitting it (vf_deinterlace_v4l2m2m.c:646-664): bind the
frame's DMA descriptors into `buffer.m`, set the field order from the
frame's interlace flags, encode the timestamp, record
`drm_frame.objects[0].fd`. -/
def bindFrameToSlot (multiplanar : Bool) (frame : AVFrameIn) (b : V4L2Buffer) :
    V4L2Buffer :=
  let b := { b with bound_fds :=
    if multiplanar then frame.obj_fds else [frame.obj_fds.headD 0] }
  let b := if frame.interlaced_frame then
      { b with field := if frame.top_field_first then V4L2_FIELD_INTERLACED_TB
                        else V4L2_FIELD_INTERLACED_BT }
    else b
  let b := { b with timestamp := v4l2_set_pts frame.pts }
  { b with drm_objects := setObjFd b.drm_objects 0 (frame.obj_fds.headD 0) }

/-- `deint_v4l2m2m_enqueue_frame` (vf_deinterlace_v4l2m2m.c:632-667):
recycle completed OUTPUT slots, find a free slot (fail with
`AVERROR(EAGAIN)` if none), bind the frame into it and submit it with
`deint_v4l2m2m_enqueue_buffer`.  `ready` are the indices `recycle_q`
dequeues, `qbufRet`/`errno` the `VIDIOC_QBUF` oracle.  Returns the
return code and the pool state after the call. -/
def deint_v4l2m2m_enqueue_frame (isOutput multiplanar : Bool) (ready : List Nat)
    (qbufRet errno : Int) (q : List V4L2Buffer) (frame : AVFrameIn) :
    Int × List V4L2Buffer :=
  let q := if isOutput then recycle_q ready q else q
  match deint_v4l2m2m_find_free_buf q with
  | none => (AVERROR EAGAIN, q)
  | some i =>
    let q := listModify (bindFrameToSlot multiplanar frame) q i
    (if qbufRet < 0 then AVERROR errno else 0,
     listModify (fun b => (deint_v4l2m2m_enqueue_buffer qbufRet errno b).2) q i)

/-! ## DMA export (`v4l2_buffer_export_drm`) -/

/-- The per-plane body of the loop in `v4l2_buffer_export_drm`
(vf_deinterlace_v4l2m2m.c:366-398), run over the plane indices in
`planes`:  `VIDIOC_EXPBUF` each plane (oracle `expRet`/`expFd`), abort
with `AVERROR(errno)` on failure keeping whatever was already exported,
store the exported fd in the slot's single `fd` field (each iteration
overwrites it), and record fd and size in `drm_frame.objects[i]`
(multiplanar) or `objects[0]` (single-planar, size `buffer.length`,
modelled by `bufLength`).  Object sizes come from
`buffer.m.planes[i].length`, the same device value stored in
`plane_info[i].length` during allocation. -/
def exportPlanes (multiplanar : Bool) (expRet expFd : Nat → Int) (errno : Int)
    (bufLength : Nat) : List Nat → V4L2Buffer → Int × V4L2Buffer
  | [], b => (0, b)
  | i :: rest, b =>
    if expRet i < 0 then (AVERROR errno, b)
    else
      let fd := expFd i
      let b := { b with fd := fd }
      let obj : DRMObject :=
        if multiplanar then
          { fd := fd, size := ((b.plane_info.get? i).map (·.length)).getD 0 }
        else
          { fd := fd, size := bufLength }
      let b :=
        if multiplanar then { b with drm_objects := b.drm_objects.set i obj }
        else { b with drm_objects := b.drm_objects.set 0 obj }
      exportPlanes multiplanar expRet expFd errno bufLength rest b

/-- `v4l2_buffer_export_drm` (vf_deinterlace_v4l2m2m.c:366-398): export
every plane of the buffer, iterating `i = 0 .. num_planes - 1`. -/
def v4l2_buffer_export_drm (multiplanar : Bool) (expRet expFd : Nat → Int)
    (errno : Int) (bufLength : Nat) (b : V4L2Buffer) : Int × V4L2Buffer :=
  exportPlanes multiplanar expRet expFd errno bufLength (List.range b.num_planes) b

/-! ## Buffer pool allocation (`deint_v4l2m2m_allocate_buffers`) -/

/-- A queue: negotiated buffer count and the slot pool
(`none` = the C `buffers` pointer is NULL). -/
structure V4L2Queue where
  num_buffers : Nat
  buffers : Option (List V4L2Buffer)
  deriving DecidableEq

/-- Device results consumed by `deint_v4l2m2m_allocate_buffers`:
`reqbufs_ret`/`reqbufs_count` for `VIDIOC_REQBUFS`, `malloc_ok` for
`av_mallocz`, per-slot `querybuf_ret` for `VIDIOC_QUERYBUF`,
`querybuf_num_planes i` the `buffer.length` a multiplanar `QUERYBUF`
reports for slot `i`, `querybuf_plane_length i j` the per-plane length,
`querybuf_length i` the single-planar `buffer.length`, per-slot
`qbuf_ret` for the CAPTURE pre-arming `VIDIOC_QBUF`, and
`expbuf_ret`/`expbuf_fd` per slot and plane for `VIDIOC_EXPBUF`.
`errno` is the value of the C `errno` after the failing call. -/
structure AllocDev where
  reqbufs_ret : Int
  reqbufs_count : Nat
  malloc_ok : Bool
  querybuf_ret : Nat → Int
  querybuf_num_planes : Nat → Nat
  querybuf_plane_length : Nat → Nat → Nat
  querybuf_length : Nat → Nat
  qbuf_ret : Nat → Int
  expbuf_ret : Nat → Nat → Int
  expbuf_fd : Nat → Nat → Int
  errno : Int

/-- The pitch recorded for plane `j` of slot `i`:
`fmt.fmt.pix_mp.plane_fmt[j].bytesperline` (multiplanar) or
`fmt.fmt.pix.bytesperline` (single-planar); a per-queue parameter of
the allocation model. -/
def allocBytesperline (fmtBytesperline : Nat → Nat) (multiplanar : Bool) (j : Nat) : Nat :=
  if multiplanar then fmtBytesperline j else fmtBytesperline 0

/-- A freshly `av_mallocz`-ed slot: every field zero.  In particular the
`fd` field of a slot the allocation loop has not yet reached is `0`,
not `-1`. -/
def zeroBuffer : V4L2Buffer :=
  { enqueued := false, fd := 0, field := 0, timestamp := { tv_sec := 0, tv_usec := 0 },
    num_planes := 0,
    plane_info := List.replicate VIDEO_MAX_PLANES { bytesperline := 0, length := 0 },
    drm_objects := List.replicate VIDEO_MAX_PLANES { fd := 0, size := 0 },
    bound_fds := [] }

/-- The per-slot body of the allocation loop
(vf_deinterlace_v4l2m2m.c:433-483), run over the slot indices in `idxs`:
initialise the slot (`enqueued = 0`, `fd = -1`), `VIDIOC_QUERYBUF`,
record the plane layout, and on a CAPTURE queue pre-arm the slot
(`deint_v4l2m2m_enqueue_buffer`) and export it
(`v4l2_buffer_export_drm`).  Returns `(0, pool)` on success and
`(ret, pool-so-far)` on the first failure (the C `goto fail`). -/
def allocLoop (isOutput multiplanar : Bool) (dev : AllocDev)
    (fmtBytesperline : Nat → Nat) :
    List Nat → List V4L2Buffer → Int × List V4L2Buffer
  | [], bufs => (0, bufs)
  | i :: rest, bufs =>
    let bufs := listModify (fun b => { b with enqueued := false, fd := -1 }) bufs i
    if dev.querybuf_ret i < 0 then (AVERROR dev.errno, bufs)
    else
      let np := if multiplanar then dev.querybuf_num_planes i else 1
      let bufs := listModify (fun b =>
        { b with
          num_planes := np,
          plane_info := (List.range VIDEO_MAX_PLANES).map (fun j =>
            if j < np then
              { bytesperline := allocBytesperline fmtBytesperline multiplanar j,
                length := if multiplanar then dev.querybuf_plane_length i j
                          else dev.querybuf_length i }
            else (b.plane_info.get? j).getD { bytesperline := 0, length := 0 }) }) bufs i
      if isOutput then allocLoop isOutput multiplanar dev fmtBytesperline rest bufs
      else
        if dev.qbuf_ret i < 0 then (AVERROR dev.errno, bufs)
        else
          let bufs := listModify (fun b =>
            (deint_v4l2m2m_enqueue_buffer (dev.qbuf_ret i) dev.errno b).2) bufs i
          match bufs.get? i with
          | none => allocLoop isOutput multiplanar dev fmtBytesperline rest bufs
          | some b =>
            let r := v4l2_buffer_export_drm multiplanar (dev.expbuf_ret i)
                       (dev.expbuf_fd i) dev.errno (dev.querybuf_length i) b
            let bufs := listModify (fun _ => r.2) bufs i
            if r.1 < 0 then (r.1, bufs)
            else allocLoop isOutput multiplanar dev fmtBytesperline rest bufs

/-- `deint_v4l2m2m_allocate_buffers` (vf_deinterlace_v4l2m2m.c:400-495).
Returns the return code, the queue state after the call, and the list
of descriptors passed to `close` by the `fail:` path (which closes
`buffers[i].fd` for every slot with `fd >= 0`, then frees the pool and
NULLs the `buffers` pointer). -/
def deint_v4l2m2m_allocate_buffers (isOutput multiplanar : Bool) (dev : AllocDev)
    (fmtBytesperline : Nat → Nat) (q : V4L2Queue) : Int × V4L2Queue × List Int :=
  if dev.reqbufs_ret < 0 then (AVERROR dev.errno, q, [])
  else
    let n := dev.reqbufs_count
    if dev.malloc_ok = false then
      (AVERROR ENOMEM, { num_buffers := n, buffers := none }, [])
    else
      let r := allocLoop isOutput multiplanar dev fmtBytesperline
                 (List.range n) (List.replicate n zeroBuffer)
      if r.1 = 0 then (0, { num_buffers := n, buffers := some r.2 }, [])
      else (r.1, { num_buffers := n, buffers := none },
            (r.2.filter (fun b => 0 ≤ b.fd)).map (·.fd))

/-! ## Exported DRM frame descriptor (`v4l2_get_drm_frame`) -/

/-- One entry of `AVDRMLayerDescriptor.planes`. -/
structure DRMPlaneDesc where
  object_index : Nat
  offset : Nat
  pitch : Nat
  deriving DecidableEq

/-- `AVDRMLayerDescriptor` (`layers[0]` of the frame descriptor). -/
structure DRMLayerDesc where
  format : Nat
  nb_planes : Nat
  planes : List DRMPlaneDesc
  deriving DecidableEq

/-- The fields of `AVDRMFrameDescriptor` written by
`v4l2_get_drm_frame`. -/
structure DRMFrameDesc where
  nb_objects : Nat
  nb_layers : Nat
  layer : DRMLayerDesc
  deriving DecidableEq

/-- The pitch stored for plane `i` of a slot
(`avbuf->plane_info[i].bytesperline`). -/
def planePitch (avbuf : V4L2Buffer) (i : Nat) : Nat :=
  ((avbuf.plane_info.get? i).map (·.bytesperline)).getD 0

/-- `v4l2_get_drm_frame` (vf_deinterlace_v4l2m2m.c:722-793) with the
fixed pixel format `AV_PIX_FMT_YUV420P` the filter always uses: one DMA
object per device plane; one layer; `planes[i] = (i, 0, bytesperline_i)`
for each device plane, and when the device returned a single plane, a
synthesized three-plane YUV 4:2:0 layout over object 0 using shifts of
`bytesperline * height`. -/
def v4l2_get_drm_frame (avbuf : V4L2Buffer) (height : Nat) : DRMFrameDesc :=
  let basePlanes := (List.range avbuf.num_planes).map
    (fun i => ({ object_index := i, offset := 0, pitch := planePitch avbuf i } : DRMPlaneDesc))
  if 1 < avbuf.num_planes then
    { nb_objects := avbuf.num_planes, nb_layers := 1,
      layer := { format := DRM_FORMAT_YUV420, nb_planes := avbuf.num_planes,
                 planes := basePlanes } }
  else
    let bpl := planePitch avbuf 0
    { nb_objects := avbuf.num_planes, nb_layers := 1,
      layer := { format := DRM_FORMAT_YUV420, nb_planes := 3,
                 planes := [{ object_index := 0, offset := 0, pitch := bpl },
                            { object_index := 0, offset := bpl * height,
                              pitch := bpl >>> 1 },
                            { object_index := 0,
                              offset := bpl * height + ((bpl * height) >>> 2),
                              pitch := bpl >>> 1 }] } }

/-! ## Shared context (`DeintV4L2M2MContextShared`) and its lifecycle -/

/-- `DeintV4L2M2MContextShared`.  The OUTPUT queue's pool is modelled
separately at queue level (`deint_v4l2m2m_enqueue_frame` above); here we
keep the fields the lifecycle, timestamp and format-negotiation paths
touch.  `closed` logs every descriptor passed to `close` and
`destroyCount` counts executions of the teardown body of
`deint_v4l2m2m_destroy_context`; `negotiations`, `allocations` and
`streamons` count the calls `deint_v4l2m2m_filter_frame` makes to
`deint_v4l2m2m_set_format`, `deint_v4l2m2m_allocate_buffers` and
`deint_v4l2m2m_streamon` (instrumentation, not C state). -/
structure SharedCtx where
  fd : Int
  done : Bool
  width : Int
  height : Int
  orig_width : Int
  orig_height : Int
  field_order : Nat
  last_pts : Int
  frame_interval : Int
  refcount : Nat
  capture : List V4L2Buffer
  closed : List Int
  destroyCount : Nat
  negotiations : Nat
  allocations : Nat
  streamons : Nat
  deriving DecidableEq

/-- The descriptors the teardown body closes out of the CAPTURE pool:
`buffers[i].fd` for every slot with `fd >= 0`
(vf_deinterlace_v4l2m2m.c:683-688). -/
def teardown_closed_fds (capture : List V4L2Buffer) : List Int :=
  (capture.filter (fun b => 0 ≤ b.fd)).map (·.fd)

/-- `deint_v4l2m2m_destroy_context` (vf_deinterlace_v4l2m2m.c:669-707):
`atomic_fetch_sub(&refcount, 1)`; when the old value was 1, run the
teardown body: stream off both queues, close every CAPTURE slot's
exported descriptor, release the queued OUTPUT frames, free both pools,
close the device handle and free the context.  The model records the
`close` calls, empties the pool (`av_free`) and counts the teardown in
`destroyCount`.  (For `refcount = 0` the C unsigned counter would wrap
to `UINT_MAX`; the `Nat` model saturates at `0` instead — valid traces
never decrement a dead context.) -/
def deint_v4l2m2m_destroy_context (s : SharedCtx) : SharedCtx :=
  if s.refcount = 1 then
    { s with
      refcount := 0,
      closed := s.closed ++ teardown_closed_fds s.capture ++
                (if 0 ≤ s.fd then [s.fd] else []),
      capture := [],
      fd := -1,
      destroyCount := s.destroyCount + 1 }
  else { s with refcount := s.refcount - 1 }

/-- `v4l2_free_buffer` (vf_deinterlace_v4l2m2m.c:709-720), the release
callback attached to every emitted CAPTURE frame, called on capture
slot `i`: when the context is not `done`, resubmit the slot with
`deint_v4l2m2m_enqueue_buffer` (oracle `qbufRet`/`errno`); then drop
one context reference with `deint_v4l2m2m_destroy_context`. -/
def v4l2_free_buffer (qbufRet errno : Int) (s : SharedCtx) (i : Nat) : SharedCtx :=
  let resubmit := fun (b : V4L2Buffer) => (deint_v4l2m2m_enqueue_buffer qbufRet errno b).2
  let s :=
    if s.done = false then { s with capture := listModify resubmit s.capture i }
    else s
  deint_v4l2m2m_destroy_context s

/-- The timestamp-reconstruction and reference-taking portion of
`deint_v4l2m2m_dequeue_frame` (vf_deinterlace_v4l2m2m.c:795-844): the
polling dequeue of the slot is abstracted to the device timestamp `ts`
the dequeued buffer carries.  The function takes one extra context
reference for the emitted frame (line 816), decodes the timestamp
(line 826), replaces a missing or repeated value by
`last_pts + frame_interval` (lines 828-829), records the emitted value
as `last_pts` (line 833) and re-encodes it onto the slot (line 835).
Returns the emitted presentation timestamp and the updated context. -/
def deint_v4l2m2m_dequeue_frame (s : SharedCtx) (ts : Timeval) : Int × SharedCtx :=
  let pts0 := v4l2_get_pts ts
  let pts := if pts0 = AV_NOPTS_VALUE ∨ pts0 = s.last_pts
             then s.last_pts + s.frame_interval else pts0
  (pts, { s with refcount := s.refcount + 1, last_pts := pts })

/-- The presentation timestamps emitted by a sequence of
`deint_v4l2m2m_dequeue_frame` calls whose dequeued buffers carry the
device timestamps `tss`. -/
def dequeue_pts_seq (s : SharedCtx) : List Timeval → List Int
  | [] => []
  | ts :: rest =>
    let r := deint_v4l2m2m_dequeue_frame s ts
    r.1 :: dequeue_pts_seq r.2 rest

/-- Property of a device-timestamp sequence: every decoded timestamp is
either missing (`AV_NOPTS_VALUE`) or at least the presentation
timestamp the filter emitted for the previous frame. -/
def no_regress (s : SharedCtx) : List Timeval → Bool
  | [] => true
  | ts :: rest =>
    (decide (v4l2_get_pts ts = AV_NOPTS_VALUE) ||
     decide (s.last_pts ≤ v4l2_get_pts ts)) &&
    no_regress (deint_v4l2m2m_dequeue_frame s ts).2 rest

/-! ## `deint_v4l2m2m_filter_frame` and `deint_v4l2m2m_init` -/

/-- Return codes of the device-interacting calls
`deint_v4l2m2m_filter_frame` makes: the two `deint_v4l2m2m_set_format`
calls, the two `deint_v4l2m2m_allocate_buffers` calls, the two
`deint_v4l2m2m_streamon` calls, and the final
`deint_v4l2m2m_enqueue_frame` (whose effect on the OUTPUT pool is
modelled at queue level above). -/
structure FilterDevRets where
  set_format_output : Int
  set_format_capture : Int
  allocate_capture : Int
  streamon_capture : Int
  allocate_output : Int
  streamon_output : Int
  enqueue_frame_ret : Int
  deriving DecidableEq

/-- `deint_v4l2m2m_filter_frame` (vf_deinterlace_v4l2m2m.c:945-1003):
when `field_order` is still `V4L2_FIELD_ANY`, derive the coded geometry
from the first frame's DRM descriptor (`pitch` =
`layers[0].planes[0].pitch`, `planes1_offset` =
`layers[0].planes[1].offset`), fix `field_order` from the frame's
`top_field_first` flag, then negotiate both formats, allocate both
pools and start both streams, propagating the first failure; finally
enqueue the frame on the OUTPUT queue.  Returns the filter return code
and the context after the call. -/
def deint_v4l2m2m_filter_frame (dev : FilterDevRets) (s : SharedCtx)
    (top_field_first : Bool) (pitch planes1_offset : Int) : Int × SharedCtx :=
  if s.field_order = V4L2_FIELD_ANY then
    let s := { s with orig_width := pitch, orig_height := planes1_offset.tdiv pitch }
    let s := { s with field_order :=
      if top_field_first then V4L2_FIELD_INTERLACED_TB else V4L2_FIELD_INTERLACED_BT }
    let s := { s with negotiations := s.negotiations + 1 }
    if dev.set_format_output ≠ 0 then (dev.set_format_output, s)
    else
      let s := { s with negotiations := s.negotiations + 1 }
      if dev.set_format_capture ≠ 0 then (dev.set_format_capture, s)
      else
        let s := { s with allocations := s.allocations + 1 }
        if dev.allocate_capture ≠ 0 then (dev.allocate_capture, s)
        else
          let s := { s with streamons := s.streamons + 1 }
          if dev.streamon_capture ≠ 0 then (dev.streamon_capture, s)
          else
            let s := { s with allocations := s.allocations + 1 }
            if dev.allocate_output ≠ 0 then (dev.allocate_output, s)
            else
              let s := { s with streamons := s.streamons + 1 }
              if dev.streamon_output ≠ 0 then (dev.streamon_output, s)
              else (dev.enqueue_frame_ret, s)
  else (dev.enqueue_frame_ret, s)

/-- Run `deint_v4l2m2m_filter_frame` over a sequence of input frames,
each with its own device results, interlace flag and DRM geometry. -/
def runFilter (s : SharedCtx) : List (FilterDevRets × Bool × Int × Int) → SharedCtx
  | [] => s
  | (d, t, p, o) :: tr => runFilter (deint_v4l2m2m_filter_frame d s t p o).2 tr

/-- The shared context as `deint_v4l2m2m_init`
(vf_deinterlace_v4l2m2m.c:1005-1028) builds it from `av_mallocz`-ed
memory: `fd = -1`, `done = 0`, `field_order = V4L2_FIELD_ANY`,
`last_pts = 0`, `frame_interval = 1000000 / 60` and `refcount = 1`. -/
def deint_v4l2m2m_init_ctx : SharedCtx :=
  { fd := -1, done := false, width := 0, height := 0,
    orig_width := 0, orig_height := 0,
    field_order := V4L2_FIELD_ANY, last_pts := 0,
    frame_interval := Int.tdiv 1000000 60, refcount := 1,
    capture := [], closed := [], destroyCount := 0,
    negotiations := 0, allocations := 0, streamons := 0 }

/-! ## Reference-count traces -/

/-- The three operations that touch the shared context's reference
count: `emit ts` is a successful `deint_v4l2m2m_dequeue_frame` (takes a
reference for the emitted frame), `uninit` is `deint_v4l2m2m_uninit`
(vf_deinterlace_v4l2m2m.c:1030-1037: set `done`, drop the pipeline's
initial reference), and `frameRelease i qbufRet errno` is the release
callback `v4l2_free_buffer` of an emitted frame backed by capture slot
`i`. -/
inductive CtxEvent where
  | emit (ts : Timeval)
  | uninit
  | frameRelease (i : Nat) (qbufRet errno : Int)
  deriving DecidableEq

/-- One context-lifecycle step. -/
def ctxStep (s : SharedCtx) : CtxEvent → SharedCtx
  | .emit ts => (deint_v4l2m2m_dequeue_frame s ts).2
  | .uninit => deint_v4l2m2m_destroy_context { s with done := true }
  | .frameRelease i qbufRet errno => v4l2_free_buffer qbufRet errno s i

/-- Run a trace of context-lifecycle events. -/
def runCtx (s : SharedCtx) (tr : List CtxEvent) : SharedCtx :=
  tr.foldl ctxStep s

/-- Number of emitted frames in a trace. -/
def emits : List CtxEvent → Nat
  | [] => 0
  | .emit _ :: tr => emits tr + 1
  | .uninit :: tr => emits tr
  | .frameRelease _ _ _ :: tr => emits tr

/-- Number of reference releases in a trace (the pipeline's `uninit`
and every emitted frame's release callback). -/
def releases : List CtxEvent → Nat
  | [] => 0
  | .emit _ :: tr => releases tr
  | .uninit :: tr => releases tr + 1
  | .frameRelease _ _ _ :: tr => releases tr + 1

/-! ## Helper lemmas -/

theorem listModify_get?_self {α : Type} (f : α → α) (l : List α) (i : Nat) :
    (listModify f l i).get? i = (l.get? i).map f := by
  induction l generalizing i with
  | nil => cases i <;> rfl
  | cons a l ih =>
    cases i with
    | zero => rfl
    | succ n => simpa [listModify] using ih n

theorem listModify_length {α : Type} (f : α → α) (l : List α) (i : Nat) :
    (listModify f l i).length = l.length := by
  induction l generalizing i with
  | nil => cases i <;> rfl
  | cons a l ih =>
    cases i with
    | zero => rfl
    | succ n => simpa [listModify] using ih n

theorem listModify_append {α : Type} (f : α → α) (q₁ : List α) (b : α) (q₂ : List α) :
    listModify f (q₁ ++ b :: q₂) q₁.length = q₁ ++ f b :: q₂ := by
  induction q₁ with
  | nil => rfl
  | cons a q₁ ih => simpa [listModify] using ih

/-! ## C3: the timestamp codec round-trip -/

/-- C3, counterexample.  The claim asserts the sentinel
`(tv_sec, tv_usec) = (1000000, 0)` "lies outside the range of values
that encoding a real timestamp can produce".  It does not: encoding the
real timestamp `pts = 10^12` microseconds produces exactly the
sentinel, so decoding gives back `AV_NOPTS_VALUE` instead of `10^12`
and the round-trip fails there. -/
theorem c3_pts_roundtrip_counterexample :
    v4l2_set_pts 1000000000000 = v4l2_set_pts AV_NOPTS_VALUE ∧
    v4l2_get_pts (v4l2_set_pts 1000000000000) = AV_NOPTS_VALUE ∧
    (1000000000000 : Int) ≠ AV_NOPTS_VALUE := by
  refine ⟨by decide, by decide, by decide⟩

/-- C3, amended: the encode/decode pair is a round-trip for every
presentation timestamp other than `AV_NOPTS_VALUE` and other than the
single real timestamp `10^12` µs (= `1000000 * USEC_PER_SEC`), whose
encoding collides with the sentinel; encoding then decoding
`AV_NOPTS_VALUE` returns `AV_NOPTS_VALUE`. -/
theorem c3_pts_roundtrip_amended :
    (∀ pts : Int, pts ≠ AV_NOPTS_VALUE → pts ≠ 1000000 * USEC_PER_SEC →
      v4l2_get_pts (v4l2_set_pts pts) = pts) ∧
    v4l2_get_pts (v4l2_set_pts AV_NOPTS_VALUE) = AV_NOPTS_VALUE := by
  constructor
  · intro pts h1 h2
    have hid := Int.tdiv_add_tmod pts USEC_PER_SEC
    unfold v4l2_set_pts v4l2_get_pts
    rw [if_neg h1]
    simp only
    split
    · rename_i h
      exfalso
      apply h2
      rw [h.1, h.2] at hid
      simpa using hid.symm
    · rw [mul_comm]
      exact hid
  · rfl

/-- C3 witness: round-trip at the concrete timestamp `12345`. -/
theorem c3_pts_roundtrip_amended_witness :
    (12345 : Int) ≠ AV_NOPTS_VALUE ∧ (12345 : Int) ≠ 1000000 * USEC_PER_SEC ∧
    v4l2_get_pts (v4l2_set_pts 12345) = 12345 :=
  ⟨by decide, by decide,
   c3_pts_roundtrip_amended.1 12345 (by decide) (by decide)⟩

/-! ## C1: emitted presentation timestamps -/

/-- C1, counterexample.  The claim asserts emitted presentation
timestamps are strictly increasing for arbitrary device timestamps.
A device timestamp that is present but smaller than the previously
emitted timestamp (and not equal to it) is passed through unchanged:
from the freshly initialised context, device timestamps `100` then `50`
emit `[100, 50]`, which is not strictly increasing. -/
theorem c1_monotone_counterexample :
    dequeue_pts_seq deint_v4l2m2m_init_ctx
      [{ tv_sec := 0, tv_usec := 100 }, { tv_sec := 0, tv_usec := 50 }] = [100, 50] ∧
    ¬ List.Chain (fun a b => a < b) deint_v4l2m2m_init_ctx.last_pts
        (dequeue_pts_seq deint_v4l2m2m_init_ctx
          [{ tv_sec := 0, tv_usec := 100 }, { tv_sec := 0, tv_usec := 50 }]) := by
  refine ⟨by decide, ?_⟩
  intro h
  rw [show dequeue_pts_seq deint_v4l2m2m_init_ctx
        [{ tv_sec := 0, tv_usec := 100 }, { tv_sec := 0, tv_usec := 50 }]
      = [100, 50] from by decide] at h
  have h2 : (100 : Int) < 50 := (List.chain_cons.mp (List.chain_cons.mp h).2).1
  exact absurd h2 (by decide)

/-- C1, amended: provided the nominal frame interval is positive and
every decoded device timestamp is either missing or at least the
previously emitted presentation timestamp (`no_regress`), the emitted
presentation timestamps are strictly increasing; and whenever the
decoded device timestamp is missing or equal to the previously emitted
value, the emitted value is the previous emitted value plus the nominal
frame interval. -/
theorem c1_monotone_amended (s : SharedCtx) (tss : List Timeval)
    (hfi : 0 < s.frame_interval) (hreg : no_regress s tss = true) :
    List.Chain (fun a b => a < b) s.last_pts (dequeue_pts_seq s tss) ∧
    (∀ (c : SharedCtx) (ts : Timeval),
      v4l2_get_pts ts = AV_NOPTS_VALUE ∨ v4l2_get_pts ts = c.last_pts →
      (deint_v4l2m2m_dequeue_frame c ts).1 = c.last_pts + c.frame_interval) := by
  refine ⟨?_, fun c ts h => by simp [deint_v4l2m2m_dequeue_frame, if_pos h]⟩
  induction tss generalizing s with
  | nil => exact List.Chain.nil
  | cons ts rest ih =>
    rw [no_regress, Bool.and_eq_true] at hreg
    rw [dequeue_pts_seq, List.chain_cons]
    constructor
    · show s.last_pts < (deint_v4l2m2m_dequeue_frame s ts).1
      rw [deint_v4l2m2m_dequeue_frame]
      simp only
      split
      · omega
      · rename_i h
        push_neg at h
        rcases Bool.or_eq_true _ _ |>.mp hreg.1 with h1 | h1
        · exact absurd (of_decide_eq_true h1) h.1
        · exact lt_of_le_of_ne (of_decide_eq_true h1) (Ne.symm h.2)
    · have hlast : (deint_v4l2m2m_dequeue_frame s ts).2.last_pts =
          (deint_v4l2m2m_dequeue_frame s ts).1 := rfl
      have hint : (deint_v4l2m2m_dequeue_frame s ts).2.frame_interval =
          s.frame_interval := rfl
      have := ih (deint_v4l2m2m_dequeue_frame s ts).2 (by rw [hint]; exact hfi) hreg.2
      rwa [hlast] at this

/-- C1 witness: from the freshly initialised context, the device
timestamps `100`, sentinel (missing), `100000` satisfy `no_regress` and
emit the strictly increasing sequence `[100, 16766, 100000]`. -/
theorem c1_monotone_amended_witness :
    0 < deint_v4l2m2m_init_ctx.frame_interval ∧
    no_regress deint_v4l2m2m_init_ctx
      [{ tv_sec := 0, tv_usec := 100 }, { tv_sec := 1000000, tv_usec := 0 },
       { tv_sec := 0, tv_usec := 100000 }] = true ∧
    List.Chain (fun a b => a < b) deint_v4l2m2m_init_ctx.last_pts
      (dequeue_pts_seq deint_v4l2m2m_init_ctx
        [{ tv_sec := 0, tv_usec := 100 }, { tv_sec := 1000000, tv_usec := 0 },
         { tv_sec := 0, tv_usec := 100000 }]) :=
  ⟨by decide, by decide,
   (c1_monotone_amended deint_v4l2m2m_init_ctx _ (by decide) (by decide)).1⟩

/-! ## C9: submitting one slot (`deint_v4l2m2m_enqueue_buffer`) -/

/-- Modelled from the spec: the spec's `submit(slot)` contract "marks
the slot enqueued and hands it to the device; failure reverts no
state", i.e. the enqueued mark is applied before the device call and is
kept when the call fails.  Used only to compare against the code's
`deint_v4l2m2m_enqueue_buffer`. -/
def submit_spec (qbufRet errno : Int) (buf : V4L2Buffer) : Int × V4L2Buffer :=
  let buf := { buf with enqueued := true }
  if qbufRet < 0 then (AVERROR errno, buf) else (0, buf)

/-- C9, counterexample.  In the code the enqueued mark is applied only
after a successful `VIDIOC_QBUF`: after a failed submit of a free slot
the flag is still unset, which differs from "the same as after the
marking step" (the spec-modelled `submit_spec`, under which it would be
set). -/
theorem c9_submit_counterexample :
    (deint_v4l2m2m_enqueue_buffer (-1) 5 zeroBuffer).2.enqueued = false ∧
    (submit_spec (-1) 5 zeroBuffer).2.enqueued = true ∧
    (deint_v4l2m2m_enqueue_buffer (-1) 5 zeroBuffer).2 ≠
      (submit_spec (-1) 5 zeroBuffer).2 := by
  refine ⟨by decide, by decide, by decide⟩

/-- C9, amended: a failed submit returns the device error
`AVERROR(errno)` and leaves the slot exactly as it was before the call
(in particular a free slot stays unmarked, because the marking step
runs only after a successful device call); a successful submit returns
`0` and sets the slot's enqueued flag. -/
theorem c9_submit_amended (qbufRet errno : Int) (buf : V4L2Buffer)
    (hb : buf.enqueued = false) :
    (qbufRet < 0 →
      deint_v4l2m2m_enqueue_buffer qbufRet errno buf = (AVERROR errno, buf) ∧
      (deint_v4l2m2m_enqueue_buffer qbufRet errno buf).2.enqueued = false) ∧
    (0 ≤ qbufRet →
      deint_v4l2m2m_enqueue_buffer qbufRet errno buf =
        (0, { buf with enqueued := true })) := by
  unfold deint_v4l2m2m_enqueue_buffer
  constructor
  · intro h
    rw [if_pos h]
    exact ⟨rfl, hb⟩
  · intro h
    rw [if_neg (not_lt.mpr h)]

/-- C9 witness: the amended statement at the concrete inputs
`qbufRet = -1` (failing submit) and `qbufRet = 0` (successful submit)
on a free slot. -/
theorem c9_submit_amended_witness :
    (deint_v4l2m2m_enqueue_buffer (-1) 5 zeroBuffer = (AVERROR 5, zeroBuffer) ∧
     (deint_v4l2m2m_enqueue_buffer (-1) 5 zeroBuffer).2.enqueued = false) ∧
    deint_v4l2m2m_enqueue_buffer 0 5 zeroBuffer =
      (0, { zeroBuffer with enqueued := true }) :=
  ⟨(c9_submit_amended (-1) 5 zeroBuffer rfl).1 (by decide),
   (c9_submit_amended 0 5 zeroBuffer rfl).2 (by decide)⟩

/-! ## C5: field order fixed exactly once -/

theorem filter_frame_of_ne_any (d : FilterDevRets) (s : SharedCtx)
    (t : Bool) (p o : Int) (h : s.field_order ≠ V4L2_FIELD_ANY) :
    deint_v4l2m2m_filter_frame d s t p o = (d.enqueue_frame_ret, s) := by
  rw [deint_v4l2m2m_filter_frame, if_neg h]

theorem filter_frame_field_order_of_any (d : FilterDevRets) (s : SharedCtx)
    (t : Bool) (p o : Int) (h : s.field_order = V4L2_FIELD_ANY) :
    (deint_v4l2m2m_filter_frame d s t p o).2.field_order =
      (if t then V4L2_FIELD_INTERLACED_TB else V4L2_FIELD_INTERLACED_BT) := by
  rw [deint_v4l2m2m_filter_frame, if_pos h]
  simp only
  split_ifs <;> rfl

theorem runFilter_of_ne_any (s : SharedCtx)
    (tr : List (FilterDevRets × Bool × Int × Int))
    (h : s.field_order ≠ V4L2_FIELD_ANY) : runFilter s tr = s := by
  induction tr with
  | nil => rfl
  | cons e tr ih =>
    obtain ⟨d, t, p, o⟩ := e
    rw [runFilter, filter_frame_of_ne_any d s t p o h]
    exact ih

/-- C5: starting from the initialised context (`field_order =
V4L2_FIELD_ANY`), the first `deint_v4l2m2m_filter_frame` call fixes the
field order to interlaced top-first or bottom-first according to the
first frame's flag — whatever the device answers — and every later
call, with arbitrary inputs and device answers, leaves the whole
context unchanged: in particular the field order never changes again
and the `deint_v4l2m2m_set_format` / `deint_v4l2m2m_allocate_buffers` /
`deint_v4l2m2m_streamon` invocation counters stay frozen, so format
negotiation, buffer allocation and stream-on are never performed
again. -/
theorem c5_field_order_set_once (d : FilterDevRets) (t : Bool) (p o : Int)
    (tr : List (FilterDevRets × Bool × Int × Int)) :
    deint_v4l2m2m_init_ctx.field_order = V4L2_FIELD_ANY ∧
    (deint_v4l2m2m_filter_frame d deint_v4l2m2m_init_ctx t p o).2.field_order =
      (if t then V4L2_FIELD_INTERLACED_TB else V4L2_FIELD_INTERLACED_BT) ∧
    runFilter (deint_v4l2m2m_filter_frame d deint_v4l2m2m_init_ctx t p o).2 tr =
      (deint_v4l2m2m_filter_frame d deint_v4l2m2m_init_ctx t p o).2 := by
  refine ⟨rfl, filter_frame_field_order_of_any d _ t p o rfl, ?_⟩
  apply runFilter_of_ne_any
  rw [filter_frame_field_order_of_any d _ t p o rfl]
  split_ifs <;> decide

/-! ## C4: the release callback of an emitted frame -/

/-- A CAPTURE slot holding the exported descriptor `7`, as dequeued and
handed downstream (its `enqueued` flag was cleared by the dequeue). -/
def capSlot7 : V4L2Buffer := { zeroBuffer with fd := 7 }

/-- A context after `deint_v4l2m2m_uninit` ran (`done` set, the
pipeline's initial reference already dropped) while one emitted frame
is still outstanding and one further reference is held, so the release
under scrutiny is not the last one. -/
def drainingCtx2 : SharedCtx :=
  { deint_v4l2m2m_init_ctx with
    done := true, refcount := 2, fd := 3, capture := [capSlot7] }

/-- C4, counterexample.  The claim says a release callback that runs
with the `done` flag set closes the slot's exported descriptor
directly.  It does not: `v4l2_free_buffer` only drops a context
reference, and when that reference is not the last one (here the count
goes 2 → 1) no descriptor at all is closed by the callback — slot 0's
descriptor `7` is still open afterwards; it is closed only later, by
the context teardown of whichever release drops the last reference. -/
theorem c4_release_counterexample :
    drainingCtx2.done = true ∧
    ((drainingCtx2.capture.get? 0).map (·.fd) = some 7) ∧
    (v4l2_free_buffer 0 0 drainingCtx2 0).closed = [] ∧
    (7 : Int) ∉ (v4l2_free_buffer 0 0 drainingCtx2 0).closed := by
  refine ⟨rfl, by decide, by decide, by decide⟩

/-- C4, amended: a release callback that runs while the stream is live
(`done` unset, the pipeline still holding its reference so the count is
at least 2) resubmits the slot — on `VIDIOC_QBUF` success its
`enqueued` flag is set again, making it eligible for a future dequeue —
and the teardown does not run.  A callback that runs after draining
(`done` set) never resubmits: if the released reference is not the last
one the whole context is unchanged except for the decremented count (in
particular nothing is closed by the callback itself), and if it is the
last one the callback triggers the context teardown, which closes every
CAPTURE slot's exported descriptor, the released slot's included. -/
theorem c4_release_amended (s : SharedCtx) (i : Nat) (qbufRet errno : Int) :
    (s.done = false → 0 ≤ qbufRet → 2 ≤ s.refcount →
      ∀ b, s.capture.get? i = some b →
        ((v4l2_free_buffer qbufRet errno s i).capture.get? i =
           some { b with enqueued := true } ∧
         (v4l2_free_buffer qbufRet errno s i).destroyCount = s.destroyCount)) ∧
    (s.done = true → 2 ≤ s.refcount →
      v4l2_free_buffer qbufRet errno s i = { s with refcount := s.refcount - 1 }) ∧
    (s.done = true → s.refcount = 1 →
      (v4l2_free_buffer qbufRet errno s i).destroyCount = s.destroyCount + 1 ∧
      ∀ b ∈ s.capture, 0 ≤ b.fd →
        b.fd ∈ (v4l2_free_buffer qbufRet errno s i).closed) := by
  refine ⟨?_, ?_, ?_⟩
  · intro hdone hq hrc b hb
    have hfb : v4l2_free_buffer qbufRet errno s i =
        deint_v4l2m2m_destroy_context
          { s with capture := listModify (fun c => (deint_v4l2m2m_enqueue_buffer qbufRet errno c).2) s.capture i } := by
      rw [v4l2_free_buffer]
      simp [hdone]
    rw [hfb, deint_v4l2m2m_destroy_context, if_neg (show ¬ s.refcount = 1 by omega)]
    constructor
    · show (listModify (fun c => (deint_v4l2m2m_enqueue_buffer qbufRet errno c).2)
          s.capture i).get? i = some { b with enqueued := true }
      rw [listModify_get?_self, hb]
      simp [deint_v4l2m2m_enqueue_buffer, if_neg (not_lt.mpr hq)]
    · rfl
  · intro hdone hrc
    have hfb : v4l2_free_buffer qbufRet errno s i = deint_v4l2m2m_destroy_context s := by
      rw [v4l2_free_buffer]
      simp [hdone]
    rw [hfb, deint_v4l2m2m_destroy_context, if_neg (show ¬ s.refcount = 1 by omega)]
  · intro hdone hrc
    have hfb : v4l2_free_buffer qbufRet errno s i = deint_v4l2m2m_destroy_context s := by
      rw [v4l2_free_buffer]
      simp [hdone]
    rw [hfb, deint_v4l2m2m_destroy_context, if_pos hrc]
    refine ⟨rfl, fun b hb hfd => ?_⟩
    show b.fd ∈ s.closed ++ teardown_closed_fds s.capture ++
      (if 0 ≤ s.fd then [s.fd] else [])
    simp only [List.mem_append]
    left; right
    rw [teardown_closed_fds]
    exact List.mem_map.mpr ⟨b, List.mem_filter.mpr ⟨hb, by simpa using hfd⟩, rfl⟩

/-- A context still live (`done` unset): the pipeline holds its initial
reference and one emitted frame holds another. -/
def liveCtx2 : SharedCtx :=
  { deint_v4l2m2m_init_ctx with refcount := 2, fd := 3, capture := [capSlot7] }

/-- C4 witness: the amended statement applied at a live context (slot
resubmitted, not torn down), at a draining context whose release is not
the last (nothing closed), and at a draining context whose release is
the last (slot descriptor 7 closed by the teardown). -/
theorem c4_release_amended_witness :
    ((v4l2_free_buffer 0 0 liveCtx2 0).capture.get? 0 =
       some { capSlot7 with enqueued := true } ∧
     (v4l2_free_buffer 0 0 liveCtx2 0).destroyCount = liveCtx2.destroyCount) ∧
    (v4l2_free_buffer 0 0 drainingCtx2 0 =
       { drainingCtx2 with refcount := 1 }) ∧
    ((v4l2_free_buffer 0 0 { drainingCtx2 with refcount := 1 } 0).destroyCount =
       ({ drainingCtx2 with refcount := 1 } : SharedCtx).destroyCount + 1 ∧
     (7 : Int) ∈ (v4l2_free_buffer 0 0 { drainingCtx2 with refcount := 1 } 0).closed) := by
  refine ⟨(c4_release_amended liveCtx2 0 0 0).1 rfl (by decide) (by decide)
            capSlot7 (by decide), ?_, ?_⟩
  · exact (c4_release_amended drainingCtx2 0 0 0).2.1 rfl (by decide)
  · have h := (c4_release_amended { drainingCtx2 with refcount := 1 } 0 0 0).2.2 rfl rfl
    exact ⟨h.1, h.2 capSlot7 (by decide) (by decide)⟩

/-! ## C6: first-free-slot lookup and backpressure -/

theorem find_free_buf_none (q : List V4L2Buffer) (h : ∀ b ∈ q, b.enqueued = true) :
    deint_v4l2m2m_find_free_buf q = none := by
  induction q with
  | nil => rfl
  | cons b q ih =>
    rw [deint_v4l2m2m_find_free_buf, h b (List.mem_cons_self b q)]
    rw [ih (fun c hc => h c (List.mem_cons_of_mem b hc))]
    rfl

theorem find_free_buf_append (q₁ : List V4L2Buffer) (b : V4L2Buffer)
    (q₂ : List V4L2Buffer) (h₁ : ∀ c ∈ q₁, c.enqueued = true)
    (hb : b.enqueued = false) :
    deint_v4l2m2m_find_free_buf (q₁ ++ b :: q₂) = some q₁.length := by
  induction q₁ with
  | nil => simp [deint_v4l2m2m_find_free_buf, hb]
  | cons a q₁ ih =>
    rw [List.cons_append, deint_v4l2m2m_find_free_buf,
      h₁ a (List.mem_cons_self a q₁),
      ih (fun c hc => h₁ c (List.mem_cons_of_mem a hc))]
    rfl

/-- The slot state after a successful submission of `frame` into a free
slot: the bindings of `bindFrameToSlot` plus the enqueued mark set by
`deint_v4l2m2m_enqueue_buffer`. -/
def submittedSlot (multiplanar : Bool) (frame : AVFrameIn) (b : V4L2Buffer) :
    V4L2Buffer :=
  { bindFrameToSlot multiplanar frame b with enqueued := true }

theorem enqueue_frame_step (multiplanar : Bool) (frame : AVFrameIn) (errno : Int)
    (q₁ : List V4L2Buffer) (b : V4L2Buffer) (q₂ : List V4L2Buffer)
    (h₁ : ∀ c ∈ q₁, c.enqueued = true) (hb : b.enqueued = false) :
    deint_v4l2m2m_enqueue_frame true multiplanar [] 0 errno (q₁ ++ b :: q₂) frame =
      (0, q₁ ++ submittedSlot multiplanar frame b :: q₂) := by
  simp only [deint_v4l2m2m_enqueue_frame, recycle_q, List.foldl_nil, ite_self,
    if_true, find_free_buf_append q₁ b q₂ h₁ hb]
  rw [listModify_append, listModify_append]
  simp [deint_v4l2m2m_enqueue_buffer, submittedSlot]

/-- `n` consecutive OUTPUT submissions of `frame` with an empty recycle
set and a device that accepts every `VIDIOC_QBUF`. -/
def submitN (multiplanar : Bool) (frame : AVFrameIn) (errno : Int) :
    Nat → List V4L2Buffer → List V4L2Buffer
  | 0, q => q
  | n + 1, q =>
    (deint_v4l2m2m_enqueue_frame true multiplanar [] 0 errno
      (submitN multiplanar frame errno n q) frame).2

theorem submitN_shape (multiplanar : Bool) (frame : AVFrameIn) (errno : Int)
    (q : List V4L2Buffer) (hfree : ∀ b ∈ q, b.enqueued = false) :
    ∀ n, n ≤ q.length →
      submitN multiplanar frame errno n q =
        (q.take n).map (submittedSlot multiplanar frame) ++ q.drop n := by
  intro n
  induction n with
  | zero => intro _; simp [submitN]
  | succ n ih =>
    intro hn
    have hlt : n < q.length := by omega
    rw [submitN, ih (by omega), List.drop_eq_getElem_cons hlt,
      enqueue_frame_step multiplanar frame errno _ _ _
        (by intro c hc
            rcases List.mem_map.mp hc with ⟨d, -, rfl⟩
            rfl)
        (hfree _ (List.getElem_mem hlt))]
    rw [List.take_succ]
    simp only [List.map_append, List.getElem?_eq_getElem hlt, Option.toList_some,
      List.map_cons, List.map_nil, List.append_assoc, List.singleton_append,
      List.map_take]

/-- C6: `deint_v4l2m2m_find_free_buf` returns the first slot in pool
order whose enqueued flag is unset and `none` when every slot is
enqueued; consequently, on an initially free OUTPUT pool of size `K`,
each of the first `K` submissions (device accepting each `VIDIOC_QBUF`,
no recycles) succeeds, after which the lookup returns `none` and the
next `deint_v4l2m2m_enqueue_frame` fails with `AVERROR(EAGAIN)` instead
of blocking. -/
theorem c6_backpressure (multiplanar : Bool) (frame : AVFrameIn) (errno : Int)
    (q : List V4L2Buffer) (hfree : ∀ b ∈ q, b.enqueued = false) :
    (∀ qq : List V4L2Buffer, (∀ b ∈ qq, b.enqueued = true) →
      deint_v4l2m2m_find_free_buf qq = none) ∧
    (∀ (q₁ : List V4L2Buffer) (b : V4L2Buffer) (q₂ : List V4L2Buffer),
      (∀ c ∈ q₁, c.enqueued = true) → b.enqueued = false →
      deint_v4l2m2m_find_free_buf (q₁ ++ b :: q₂) = some q₁.length) ∧
    (∀ n, n < q.length →
      (deint_v4l2m2m_enqueue_frame true multiplanar [] 0 errno
        (submitN multiplanar frame errno n q) frame).1 = 0) ∧
    deint_v4l2m2m_find_free_buf (submitN multiplanar frame errno q.length q) = none ∧
    (deint_v4l2m2m_enqueue_frame true multiplanar [] 0 errno
      (submitN multiplanar frame errno q.length q) frame).1 = AVERROR EAGAIN := by
  have hfull : submitN multiplanar frame errno q.length q =
      q.map (submittedSlot multiplanar frame) := by
    rw [submitN_shape multiplanar frame errno q hfree q.length (le_refl _)]
    simp
  have hnone : deint_v4l2m2m_find_free_buf
      (submitN multiplanar frame errno q.length q) = none := by
    rw [hfull]
    apply find_free_buf_none
    intro b hb
    rcases List.mem_map.mp hb with ⟨d, -, rfl⟩
    rfl
  refine ⟨find_free_buf_none, find_free_buf_append, ?_, hnone, ?_⟩
  · intro n hn
    rw [submitN_shape multiplanar frame errno q hfree n (by omega),
      List.drop_eq_getElem_cons hn,
      enqueue_frame_step multiplanar frame errno _ _ _
        (by intro c hc
            rcases List.mem_map.mp hc with ⟨d, -, rfl⟩
            rfl)
        (hfree _ (List.getElem_mem hn))]
  · rw [deint_v4l2m2m_enqueue_frame]
    simp only [if_true, ite_self, recycle_q, List.foldl_nil, hnone]

/-- Sample input frame used by the C6 witness. -/
def sampleFrame : AVFrameIn :=
  { pts := 0, interlaced_frame := true, top_field_first := true, obj_fds := [5] }

/-- C6 witness: a pool of two free slots accepts exactly two
submissions and the third fails with `AVERROR(EAGAIN)`. -/
theorem c6_backpressure_witness :
    (∀ b ∈ ([zeroBuffer, zeroBuffer] : List V4L2Buffer), b.enqueued = false) ∧
    deint_v4l2m2m_find_free_buf
      (submitN false sampleFrame 5 2 [zeroBuffer, zeroBuffer]) = none ∧
    (deint_v4l2m2m_enqueue_frame true false [] 0 5
      (submitN false sampleFrame 5 2 [zeroBuffer, zeroBuffer]) sampleFrame).1 =
      AVERROR EAGAIN :=
  ⟨by decide,
   (c6_backpressure false sampleFrame 5 [zeroBuffer, zeroBuffer] (by decide)).2.2.2.1,
   (c6_backpressure false sampleFrame 5 [zeroBuffer, zeroBuffer] (by decide)).2.2.2.2⟩

/-! ## C7: cleanup after a failed buffer-pool allocation -/

/-- Device answers for the C7 failing run: `VIDIOC_REQBUFS` grants 2
buffers, `av_mallocz` succeeds, and the first `VIDIOC_QUERYBUF` fails
with `errno = EINVAL`. -/
def allocFailDev : AllocDev :=
  { reqbufs_ret := 0, reqbufs_count := 2, malloc_ok := true,
    querybuf_ret := fun _ => -1, querybuf_num_planes := fun _ => 1,
    querybuf_plane_length := fun _ _ => 0, querybuf_length := fun _ => 0,
    qbuf_ret := fun _ => 0, expbuf_ret := fun _ _ => 0, expbuf_fd := fun _ _ => 0,
    errno := EINVAL }

/-- C7: on a single-planar OUTPUT queue with two requested buffers
whose first `VIDIOC_QUERYBUF` fails, `deint_v4l2m2m_allocate_buffers`
returns the error and leaves the pool empty as the claim says — but its
`fail:` path also calls `close(0)`: slot 1 was never reached by the
allocation loop, so its zero-initialised `fd` field still holds `0`,
which passes the `fd >= 0` guard even though no descriptor was ever
created for it (the OUTPUT path exports no descriptors at all).  The
cleanup therefore closes a descriptor it never created, contradicting
the claim; the `fd >= 0` guard together with the per-slot `fd = -1`
initialisation shows the intent was to skip exactly such slots. -/
theorem c7_alloc_cleanup_closes_stale_fd :
    deint_v4l2m2m_allocate_buffers true false allocFailDev (fun _ => 128)
      { num_buffers := 2, buffers := none } =
      (AVERROR EINVAL, { num_buffers := 2, buffers := none }, [0]) ∧
    ([0] : List Int) ≠ [] := by
  exact ⟨by decide, by decide⟩

/-! ## C8: the synthesized DRM plane layout -/

/-- C8: with the filter's fixed YUV420P pixel format,
`v4l2_get_drm_frame` builds — for a single device plane — one object
and a three-plane layout over object 0 with plane 0 at offset 0 and
pitch `bytesperline`, plane 1 at offset `bytesperline * height` and
pitch `bytesperline / 2`, and plane 2 at offset
`bytesperline * height + (bytesperline * height) / 4` and pitch
`bytesperline / 2`; and — for multiple device planes — one object and
one plane per device plane, each at offset 0 with its stored
per-plane pitch. -/
theorem c8_drm_layout (b : V4L2Buffer) (height : Nat) :
    (b.num_planes = 1 →
      v4l2_get_drm_frame b height =
        ⟨1, 1, ⟨DRM_FORMAT_YUV420, 3,
          [⟨0, 0, planePitch b 0⟩,
           ⟨0, planePitch b 0 * height, planePitch b 0 / 2⟩,
           ⟨0, planePitch b 0 * height + planePitch b 0 * height / 4,
            planePitch b 0 / 2⟩]⟩⟩) ∧
    (1 < b.num_planes →
      v4l2_get_drm_frame b height =
        ⟨b.num_planes, 1, ⟨DRM_FORMAT_YUV420, b.num_planes,
          (List.range b.num_planes).map (fun i => ⟨i, 0, planePitch b i⟩)⟩⟩) := by
  constructor
  · intro h1
    rw [v4l2_get_drm_frame, if_neg (by omega), h1]
    norm_num [Nat.shiftRight_eq_div_pow]
  · intro h2
    rw [v4l2_get_drm_frame, if_pos h2]

/-- A CAPTURE slot as the device reports it on a single-planar queue:
one plane, 128 bytes per line. -/
def capBuf1 : V4L2Buffer :=
  { zeroBuffer with num_planes := 1, plane_info := [{ bytesperline := 128, length := 19200 }] }

/-- C8 witness: the synthesized layout for a single-planar slot with
`bytesperline = 128` and `height = 100`. -/
theorem c8_drm_layout_witness :
    capBuf1.num_planes = 1 ∧
    v4l2_get_drm_frame capBuf1 100 =
      ⟨1, 1, ⟨DRM_FORMAT_YUV420, 3, [⟨0, 0, 128⟩, ⟨0, 12800, 64⟩, ⟨0, 16000, 64⟩]⟩⟩ :=
  ⟨rfl, by rw [(c8_drm_layout capBuf1 100).1 rfl]; rfl⟩

/-! ## C10: multi-plane export keeps only the last descriptor -/

theorem exportPlanes_ok_shape (expRet expFd : Nat → Int) (errno : Int)
    (bufLength : Nat) (l : List Nat) :
    ∀ b : V4L2Buffer, (∀ i ∈ l, 0 ≤ expRet i) →
      (exportPlanes true expRet expFd errno bufLength l b).1 = 0 ∧
      (exportPlanes true expRet expFd errno bufLength l b).2.fd =
        l.foldl (fun _ i => expFd i) b.fd ∧
      (exportPlanes true expRet expFd errno bufLength l b).2.drm_objects.length =
        b.drm_objects.length := by
  induction l with
  | nil => intro b _; exact ⟨rfl, rfl, rfl⟩
  | cons i rest ih =>
    intro b hok
    rw [exportPlanes, if_neg (not_lt.mpr (hok i (List.mem_cons_self i rest)))]
    simp only [if_true, List.foldl_cons]
    have hrest : ∀ j ∈ rest, 0 ≤ expRet j :=
      fun j hj => hok j (List.mem_cons_of_mem i hj)
    refine ⟨(ih _ hrest).1, (ih _ hrest).2.1, ((ih _ hrest).2.2).trans ?_⟩
    exact List.length_set _ _ _

theorem exportPlanes_getElem_not_mem (expRet expFd : Nat → Int) (errno : Int)
    (bufLength : Nat) (l : List Nat) :
    ∀ (b : V4L2Buffer) (j : Nat), j ∉ l → (∀ i ∈ l, 0 ≤ expRet i) →
      (exportPlanes true expRet expFd errno bufLength l b).2.drm_objects[j]? =
        b.drm_objects[j]? := by
  induction l with
  | nil => intro b j _ _; rfl
  | cons i rest ih =>
    intro b j hj hok
    rw [exportPlanes, if_neg (not_lt.mpr (hok i (List.mem_cons_self i rest)))]
    simp only [if_true]
    rw [ih _ j (fun h => hj (List.mem_cons_of_mem i h))
        (fun k hk => hok k (List.mem_cons_of_mem i hk))]
    refine List.getElem?_set_ne ?_
    rintro rfl
    exact hj (List.mem_cons_self _ _)

theorem exportPlanes_getElem_mem (expRet expFd : Nat → Int) (errno : Int)
    (bufLength : Nat) (l : List Nat) :
    ∀ b : V4L2Buffer, l.Nodup → (∀ i ∈ l, 0 ≤ expRet i) →
      ∀ j ∈ l, j < b.drm_objects.length →
        ((exportPlanes true expRet expFd errno bufLength l b).2.drm_objects[j]?).map (·.fd) =
          some (expFd j) := by
  induction l with
  | nil => intro b _ _ j hj; exact absurd hj (List.not_mem_nil j)
  | cons i rest ih =>
    intro b hnd hok j hj hlen
    rw [exportPlanes, if_neg (not_lt.mpr (hok i (List.mem_cons_self i rest)))]
    simp only [if_true]
    rcases List.mem_cons.mp hj with rfl | hjr
    · rw [exportPlanes_getElem_not_mem expRet expFd errno bufLength rest _ j
          (List.nodup_cons.mp hnd).1
          (fun k hk => hok k (List.mem_cons_of_mem j hk))]
      rw [List.getElem?_set_self (by simpa using hlen)]
      rfl
    · exact ih _ (List.nodup_cons.mp hnd).2
        (fun k hk => hok k (List.mem_cons_of_mem i hk)) j hjr
        (by simpa using hlen)

theorem foldl_const_range_last (f : Nat → Int) (x : Int) (n : Nat) (hn : 1 ≤ n) :
    (List.range n).foldl (fun _ i => f i) x = f (n - 1) := by
  cases n with
  | zero => omega
  | succ m => rw [List.range_succ, List.foldl_append]; rfl

/-- C10: on a multi-plane CAPTURE buffer, a fully successful
`v4l2_buffer_export_drm` records every plane's exported descriptor in
`drm_frame.objects`, but the slot's single `fd` field keeps only the
descriptor of the last plane; the context-teardown path closes exactly
that per-slot `fd`, so the descriptors of all planes before the last —
whenever distinct from the last one — are never closed by it. -/
theorem c10_export_retains_last_fd (b : V4L2Buffer) (expRet expFd : Nat → Int)
    (errno : Int) (bufLength : Nat)
    (hn : 2 ≤ b.num_planes) (hobj : b.num_planes ≤ b.drm_objects.length)
    (hok : ∀ i, i < b.num_planes → 0 ≤ expRet i) :
    (v4l2_buffer_export_drm true expRet expFd errno bufLength b).1 = 0 ∧
    (v4l2_buffer_export_drm true expRet expFd errno bufLength b).2.fd =
      expFd (b.num_planes - 1) ∧
    (∀ j, j < b.num_planes →
      ((v4l2_buffer_export_drm true expRet expFd errno bufLength b).2.drm_objects[j]?).map (·.fd) =
        some (expFd j)) ∧
    teardown_closed_fds [(v4l2_buffer_export_drm true expRet expFd errno bufLength b).2] =
      (if 0 ≤ expFd (b.num_planes - 1) then [expFd (b.num_planes - 1)] else []) ∧
    (∀ j, j + 1 < b.num_planes → expFd j ≠ expFd (b.num_planes - 1) →
      expFd j ∉
        teardown_closed_fds [(v4l2_buffer_export_drm true expRet expFd errno bufLength b).2]) := by
  have hok' : ∀ i ∈ List.range b.num_planes, 0 ≤ expRet i :=
    fun i hi => hok i (List.mem_range.mp hi)
  have hshape := exportPlanes_ok_shape expRet expFd errno bufLength
    (List.range b.num_planes) b hok'
  have hfd : (v4l2_buffer_export_drm true expRet expFd errno bufLength b).2.fd =
      expFd (b.num_planes - 1) := by
    unfold v4l2_buffer_export_drm
    rw [hshape.2.1, foldl_const_range_last expFd b.fd b.num_planes (by omega)]
  have hclosed : teardown_closed_fds
      [(v4l2_buffer_export_drm true expRet expFd errno bufLength b).2] =
      (if 0 ≤ expFd (b.num_planes - 1) then [expFd (b.num_planes - 1)] else []) := by
    rw [teardown_closed_fds]
    by_cases hpos : 0 ≤ expFd (b.num_planes - 1)
    · rw [if_pos hpos]
      rw [List.filter_cons, if_pos (by rw [hfd]; exact decide_eq_true hpos)]
      simp [hfd]
    · rw [if_neg hpos]
      rw [List.filter_cons, if_neg (by rw [hfd]; simpa using hpos)]
      rfl
  refine ⟨hshape.1, hfd, ?_, hclosed, ?_⟩
  · intro j hj
    exact exportPlanes_getElem_mem expRet expFd errno bufLength
      (List.range b.num_planes) b (List.nodup_range _) hok' j
      (List.mem_range.mpr hj) (by omega)
  · intro j hj hne
    rw [hclosed]
    by_cases hpos : 0 ≤ expFd (b.num_planes - 1)
    · rw [if_pos hpos]
      simpa using hne
    · rw [if_neg hpos]
      exact List.not_mem_nil _

/-- A CAPTURE slot on a multiplanar queue with two device planes. -/
def capBuf2 : V4L2Buffer := { zeroBuffer with num_planes := 2 }

/-- C10 witness: exporting the two planes of `capBuf2` as descriptors
`40` and `41` leaves only `41` in the slot's `fd` field; the teardown
path closes `[41]` and never closes `40`. -/
theorem c10_export_retains_last_fd_witness :
    (v4l2_buffer_export_drm true (fun _ => 0) (fun i => 40 + (i : Int)) 0 0 capBuf2).2.fd = 41 ∧
    teardown_closed_fds
      [(v4l2_buffer_export_drm true (fun _ => 0) (fun i => 40 + (i : Int)) 0 0 capBuf2).2] = [41] ∧
    (40 : Int) ∉ teardown_closed_fds
      [(v4l2_buffer_export_drm true (fun _ => 0) (fun i => 40 + (i : Int)) 0 0 capBuf2).2] := by
  have h := c10_export_retains_last_fd capBuf2 (fun _ => 0) (fun i => 40 + (i : Int))
    0 0 (by decide) (by decide) (fun i _ => le_refl 0)
  refine ⟨by simpa using h.2.1, ?_, ?_⟩
  · have := h.2.2.2.1
    simpa using this
  · have := h.2.2.2.2 0 (by decide) (by decide)
    simpa using this

/-! ## C2: the shared context is destroyed exactly once -/

theorem destroy_context_refcount (s : SharedCtx) :
    (deint_v4l2m2m_destroy_context s).refcount =
      (if s.refcount = 1 then 0 else s.refcount - 1) := by
  rw [deint_v4l2m2m_destroy_context]
  split_ifs <;> rfl

theorem destroy_context_destroyCount (s : SharedCtx) :
    (deint_v4l2m2m_destroy_context s).destroyCount =
      (if s.refcount = 1 then s.destroyCount + 1 else s.destroyCount) := by
  rw [deint_v4l2m2m_destroy_context]
  split_ifs <;> rfl

theorem free_buffer_refcount (qb er : Int) (s : SharedCtx) (i : Nat) :
    (v4l2_free_buffer qb er s i).refcount =
      (if s.refcount = 1 then 0 else s.refcount - 1) := by
  simp only [v4l2_free_buffer]
  by_cases hdone : s.done = false
  · rw [if_pos hdone, destroy_context_refcount]
  · rw [if_neg hdone, destroy_context_refcount]

theorem free_buffer_destroyCount (qb er : Int) (s : SharedCtx) (i : Nat) :
    (v4l2_free_buffer qb er s i).destroyCount =
      (if s.refcount = 1 then s.destroyCount + 1 else s.destroyCount) := by
  simp only [v4l2_free_buffer]
  by_cases hdone : s.done = false
  · rw [if_pos hdone, destroy_context_destroyCount]
  · rw [if_neg hdone, destroy_context_destroyCount]

/-- Every context-lifecycle event either takes one reference (an emit)
or releases one, running the teardown body exactly when the released
reference was the last one. -/
theorem ctxStep_refcount_destroyCount (s : SharedCtx) (ev : CtxEvent) :
    (releases [ev] = 0 ∧ emits [ev] = 1 ∧
      (ctxStep s ev).refcount = s.refcount + 1 ∧
      (ctxStep s ev).destroyCount = s.destroyCount) ∨
    (releases [ev] = 1 ∧ emits [ev] = 0 ∧
      (ctxStep s ev).refcount = (if s.refcount = 1 then 0 else s.refcount - 1) ∧
      (ctxStep s ev).destroyCount =
        (if s.refcount = 1 then s.destroyCount + 1 else s.destroyCount)) := by
  cases ev with
  | emit ts => exact .inl ⟨rfl, rfl, rfl, rfl⟩
  | uninit =>
    refine .inr ⟨rfl, rfl, ?_, ?_⟩
    · rw [show ctxStep s .uninit =
          deint_v4l2m2m_destroy_context { s with done := true } from rfl,
        destroy_context_refcount]
    · rw [show ctxStep s .uninit =
          deint_v4l2m2m_destroy_context { s with done := true } from rfl,
        destroy_context_destroyCount]
  | frameRelease i qb er =>
    exact .inr ⟨rfl, rfl, free_buffer_refcount qb er s i,
      free_buffer_destroyCount qb er s i⟩

theorem releases_cons (ev : CtxEvent) (l : List CtxEvent) :
    releases (ev :: l) = releases [ev] + releases l := by
  cases ev <;> simp [releases, Nat.add_comm]

theorem emits_cons (ev : CtxEvent) (l : List CtxEvent) :
    emits (ev :: l) = emits [ev] + emits l := by
  cases ev <;> simp [emits, Nat.add_comm]

theorem runCtx_teardown_once (tr : List CtxEvent) :
    ∀ (E R : Nat) (s : SharedCtx), R ≤ E → s.refcount = 1 + E - R →
      s.destroyCount = 0 →
      (∀ n, n < tr.length → R + releases (tr.take n) ≤ E + emits (tr.take n)) →
      (R + releases tr = E + emits tr + 1) →
      (runCtx s tr).destroyCount = 1 ∧ (runCtx s tr).refcount = 0 ∧
      ∀ n, n < tr.length → (runCtx s (tr.take n)).destroyCount = 0 := by
  induction tr with
  | nil =>
    intro E R s hRE hrc hd hpre hfin
    simp only [releases, emits] at hfin
    omega
  | cons ev rest ih =>
    intro E R s hRE hrc hd hpre hfin
    rcases ctxStep_refcount_destroyCount s ev with
      ⟨hre, hem, hrc', hd'⟩ | ⟨hre, hem, hrc', hd'⟩
    · -- the event emits a frame and takes a reference
      have hpre' : ∀ n, n < rest.length →
          R + releases (rest.take n) ≤ (E + 1) + emits (rest.take n) := by
        intro n hn
        have h := hpre (n + 1) (by simp only [List.length_cons]; omega)
        rw [List.take_succ_cons, releases_cons, emits_cons, hre, hem] at h
        omega
      have hfin' : R + releases rest = (E + 1) + emits rest + 1 := by
        rw [releases_cons, emits_cons, hre, hem] at hfin
        omega
      have hmain := ih (E + 1) R (ctxStep s ev) (by omega)
        (by rw [hrc', hrc]; omega) (by rw [hd']; exact hd) hpre' hfin'
      refine ⟨hmain.1, hmain.2.1, ?_⟩
      intro n hn
      cases n with
      | zero => exact hd
      | succ m =>
        rw [List.take_succ_cons]
        exact hmain.2.2 m (by simp only [List.length_cons] at hn; omega)
    · -- the event releases a reference
      cases rest with
      | nil =>
        have hR : R = E := by
          rw [releases_cons, emits_cons, hre, hem] at hfin
          simp only [releases, emits] at hfin
          omega
        have h1 : s.refcount = 1 := by omega
        refine ⟨?_, ?_, ?_⟩
        · show (ctxStep s ev).destroyCount = 1
          rw [hd', if_pos h1, hd]
        · show (ctxStep s ev).refcount = 0
          rw [hrc', if_pos h1]
        · intro n hn
          have : n = 0 := by simp only [List.length_cons, List.length_nil] at hn; omega
          rw [this]
          exact hd
      | cons e2 rs =>
        have hlt : R + 1 ≤ E := by
          have h := hpre 1 (by simp only [List.length_cons]; omega)
          rw [show (ev :: e2 :: rs).take 1 = [ev] from rfl, hre, hem] at h
          omega
        have hne : s.refcount ≠ 1 := by omega
        have hpre' : ∀ n, n < (e2 :: rs).length →
            (R + 1) + releases ((e2 :: rs).take n) ≤ E + emits ((e2 :: rs).take n) := by
          intro n hn
          have h := hpre (n + 1) (by simp only [List.length_cons] at hn ⊢; omega)
          rw [List.take_succ_cons, releases_cons, emits_cons, hre, hem] at h
          omega
        have hfin' : (R + 1) + releases (e2 :: rs) = E + emits (e2 :: rs) + 1 := by
          rw [releases_cons, emits_cons, hre, hem] at hfin
          omega
        have hmain := ih E (R + 1) (ctxStep s ev) hlt
          (by rw [hrc', if_neg hne, hrc]; omega) (by rw [hd', if_neg hne]; exact hd)
          hpre' hfin'
        refine ⟨hmain.1, hmain.2.1, ?_⟩
        intro n hn
        cases n with
        | zero => exact hd
        | succ m =>
          rw [List.take_succ_cons]
          exact hmain.2.2 m (by simp only [List.length_cons] at hn ⊢; omega)

/-- C2: starting from the context built by `deint_v4l2m2m_init`
(reference count 1, held by the pipeline), take one further reference
per frame emitted by `deint_v4l2m2m_dequeue_frame` and release
references through `deint_v4l2m2m_uninit` and the emitted frames'
release callbacks, in any order in which every proper prefix of the
trace releases no more references than were issued so far (so the count
never hits zero early — in particular releases may come after `uninit`)
and the full trace releases all `emits + 1` issued references.  Then
the teardown body of `deint_v4l2m2m_destroy_context` — stream-off,
closing the exported descriptors, freeing the pools, closing the device
handle, freeing the context — runs exactly once: it has not run after
any proper prefix, and it has run (once, with the count at zero) at the
end, i.e. exactly at the release that takes the count from one to
zero. -/
theorem c2_destroy_exactly_once (tr : List CtxEvent)
    (hpre : ∀ n, n < tr.length → releases (tr.take n) ≤ emits (tr.take n))
    (hfin : releases tr = emits tr + 1) :
    (runCtx deint_v4l2m2m_init_ctx tr).destroyCount = 1 ∧
    (runCtx deint_v4l2m2m_init_ctx tr).refcount = 0 ∧
    ∀ n, n < tr.length →
      (runCtx deint_v4l2m2m_init_ctx (tr.take n)).destroyCount = 0 :=
  runCtx_teardown_once tr 0 0 deint_v4l2m2m_init_ctx (le_refl 0) rfl rfl
    (by simpa using hpre) (by simpa using hfin)

/-- C2 witness trace: a frame is emitted, the pipeline is torn down
while the frame is still outstanding, and the frame's release callback
runs last. -/
def traceW : List CtxEvent :=
  [.emit { tv_sec := 0, tv_usec := 100 }, .uninit, .frameRelease 0 0 0]

/-- C2 witness: on `traceW` the teardown runs exactly once, at the
final release. -/
theorem c2_destroy_exactly_once_witness :
    (∀ n, n < traceW.length → releases (traceW.take n) ≤ emits (traceW.take n)) ∧
    releases traceW = emits traceW + 1 ∧
    (runCtx deint_v4l2m2m_init_ctx traceW).destroyCount = 1 ∧
    (runCtx deint_v4l2m2m_init_ctx traceW).refcount = 0 ∧
    ∀ n, n < traceW.length →
      (runCtx deint_v4l2m2m_init_ctx (traceW.take n)).destroyCount = 0 :=
  ⟨by decide, by decide,
   (c2_destroy_exactly_once traceW (by decide) (by decide)).1,
   (c2_destroy_exactly_once traceW (by decide) (by decide)).2.1,
   (c2_destroy_exactly_once traceW (by decide) (by decide)).2.2⟩

end DeintV4L2M2M
